import Mathlib

/-!
Verification of the Solar Orbiter visualization app core
(`src/app.py`): date-range filtering, time-series trace building,
Pearson correlation heatmap, anomaly-score chart, and the
spec-described pivot/aggregation engine.

The table is embedded as a list of rows; each row carries the value of
the `Date` column (a string, compared lexicographically exactly as
pandas compares ISO date strings) and an association list from column
name to numeric value (floats idealized as rationals).  Fallible
column access (pandas `KeyError`) is embedded as `Except` with an
`UnknownColumnError` payload.  Pearson correlation cells are `Option ℝ`,
with `none` as the NaN sentinel pandas produces for degenerate input.
-/

/-- One data row: the `Date` cell plus the numeric cells keyed by column name. -/
structure Row where
  date : String
  cells : List (String × ℚ)
deriving DecidableEq

/-- The loaded dataset: column names (schema) and ordered rows. -/
structure Table where
  cols : List String
  rows : List Row
deriving DecidableEq

/-- Value of column `c` in row `r` (rows share the schema, so the
default is never consulted on schema-respecting tables). -/
def cellVal (r : Row) (c : String) : ℚ :=
  (r.cells.lookup c).getD 0

/-- Lexicographic string comparison, as pandas applies `<=` to the ISO
date strings of the `Date` column. -/
def strLe (a b : String) : Bool :=
  decide (a.toList ≤ b.toList)

/-- Line 63 of `app.py`:
`solar_data[(solar_data[Date] >= start_date) & (solar_data[Date] <= end_date)]`. -/
def filterByDate (t : Table) (start_date end_date : String) : Table :=
  { t with rows := t.rows.filter (fun r => strLe start_date r.date && strLe r.date end_date) }

/-- Error raised when a requested column is absent from the schema
(pandas `KeyError`). -/
structure UnknownColumnError where
  name : String
deriving DecidableEq

/-- Column access `df[c]`: the column values in row order, or an
`UnknownColumnError` when `c` is not in the schema. -/
def getColumn (t : Table) (c : String) : Except UnknownColumnError (List ℚ) :=
  if c ∈ t.cols then .ok (t.rows.map (fun r => cellVal r c)) else .error ⟨c⟩

/-- One named chart series: x values (dates) and aligned y values. -/
structure Series where
  name : String
  x : List String
  y : List ℚ
deriving DecidableEq

/-- Lines 66 to 75 of `app.py`: one `Scatter` trace per selected
instrument, with x the `Date` column and y the instrument column of the
filtered data; an unknown instrument raises before further traces are
added. -/
def buildTraces (t : Table) : List String → Except UnknownColumnError (List Series)
  | [] => .ok []
  | c :: cs =>
    match getColumn t c with
    | .error e => .error e
    | .ok ys => (buildTraces t cs).map (fun rest => ⟨c, t.rows.map (fun r => r.date), ys⟩ :: rest)

/-- Mean of a list of rationals (empty list gives `0/0 = 0`). -/
def mean (xs : List ℚ) : ℚ :=
  xs.sum / xs.length

/-- Deviations from the mean. -/
def devs (xs : List ℚ) : List ℚ :=
  xs.map (fun x => x - mean xs)

/-- Centered second moment `Σ (x - mean xs) * (y - mean ys)` over paired
entries, the shared numerator and denominator pieces of Pearson r. -/
def sxy (xs ys : List ℚ) : ℚ :=
  (List.zipWith (fun a b => a * b) (devs xs) (devs ys)).sum

/-- One cell of `DataFrame.corr()`: Pearson r, with `none` standing for
the NaN pandas yields when either column has zero centered sum of
squares (constant column, or fewer than two rows). -/
noncomputable def corrCell (xs ys : List ℚ) : Option ℝ :=
  if sxy xs xs = 0 ∨ sxy ys ys = 0 then none
  else some ((sxy xs ys : ℝ) / Real.sqrt ((sxy xs xs : ℝ) * (sxy ys ys : ℝ)))

/-- Values of column `c` of table `t`, in row order. -/
def colVals (t : Table) (c : String) : List ℚ :=
  t.rows.map (fun r => cellVal r c)

/-- The square grid `filtered_data[selected_instruments].corr()`, keyed
by the selection order in both directions. -/
noncomputable def corrGrid (t : Table) (sel : List String) : List (List (Option ℝ)) :=
  sel.map (fun a => sel.map (fun b => corrCell (colVals t a) (colVals t b)))

/-- The heatmap payload of lines 79 to 86 of `app.py`: the correlation
grid `z` plus the selection as both axis label lists. -/
structure Heatmap where
  z : List (List (Option ℝ))
  x : List String
  y : List String

/-- Lines 79 to 86 of `app.py`: `filtered_data[selected_instruments]`
raises on an unknown selected column, otherwise `.corr()` is taken. -/
noncomputable def corrHeatmap (t : Table) (sel : List String) : Except UnknownColumnError Heatmap :=
  if ∀ c ∈ sel, c ∈ t.cols then .ok ⟨corrGrid t sel, sel, sel⟩
  else .error ⟨(sel.find? (fun c => !(t.cols.contains c))).getD ""⟩

/-- Lines 90 to 95 of `app.py`: `px.line(filtered_data, x=Date,
y=anomaly_score)` — a single series read from the filtered data. -/
def anomalyF (t : Table) : Except UnknownColumnError Series :=
  (getColumn t "anomaly_score").map
    (fun ys => ⟨"anomaly_score", t.rows.map (fun r => r.date), ys⟩)

/-- The three figure payloads returned by the callback. -/
structure Payloads where
  time_series : List Series
  heatmap : Heatmap
  anomaly : Series

/-- The callback `update_graphs` of `app.py` lines 62 to 97: filter by
date range, build the time-series traces, the correlation heatmap and
the anomaly chart, in that order. -/
noncomputable def update_graphs (t : Table) (selected_instruments : List String)
    (start_date end_date : String) : Except UnknownColumnError Payloads :=
  let filtered_data := filterByDate t start_date end_date
  (buildTraces filtered_data selected_instruments).bind (fun ts =>
    (corrHeatmap filtered_data selected_instruments).bind (fun hm =>
      (anomalyF filtered_data).map (fun an => ⟨ts, hm, an⟩)))

/-- The application state: the module-level `solar_data` table loaded
once at startup. -/
structure AppState where
  solar_data : Table
deriving DecidableEq

/-- The user inputs of one callback invocation. -/
structure Inputs where
  selected_instruments : List String
  start_date : String
  end_date : String

/-- One callback invocation as a state transition: `update_graphs`
reads `solar_data` and returns figures; it never assigns to the
module-level table. -/
noncomputable def callback_step (st : AppState) (i : Inputs) :
    AppState × Except UnknownColumnError Payloads :=
  (st, update_graphs st.solar_data i.selected_instruments i.start_date i.end_date)

/-- The state after a sequence of callback invocations. -/
noncomputable def run_callbacks (st : AppState) (is : List Inputs) : AppState :=
  is.foldl (fun s i => (callback_step s i).1) st

/-- Modelled from the spec: a row of the feature-importance table the
AggregationEngine pivots (`Type`, `Duration`, `Feature`,
`Normalized_Importance`); the pivot code itself is not under `src/`,
only this app variant is. -/
structure PivotRow where
  ty : String
  duration : ℚ
  feature : String
  importance : ℚ
deriving DecidableEq

/-- Modelled from the spec: the category predicate of the FilterEngine —
keep rows whose label column equals one of the accepted values; an empty
accepted set keeps nothing. -/
def filterCategory (rows : List PivotRow) (accepted : List String) : List PivotRow :=
  rows.filter (fun r => accepted.contains r.ty)

/-- First occurrence of each element, in first-seen order. -/
def firstSeenAux (seen : List String) : List String → List String
  | [] => []
  | c :: cs => if c ∈ seen then firstSeenAux seen cs else c :: firstSeenAux (c :: seen) cs

/-- Distinct elements in first-seen order. -/
def firstSeen (l : List String) : List String :=
  firstSeenAux [] l

/-- Modelled from the spec: the row keys of the pivot — the distinct
`Duration` values present in the view, in ascending order. -/
def pivotRowKeys (rows : List PivotRow) : List ℚ :=
  List.insertionSort (fun a b => a ≤ b) ((rows.map (fun r => r.duration)).dedup)

/-- Modelled from the spec: the candidate column keys of the pivot — the
distinct `Feature` values in first-seen order. -/
def pivotColKeys (rows : List PivotRow) : List String :=
  firstSeen (rows.map (fun r => r.feature))

/-- Modelled from the spec: one aggregated cell — the sum of
`Normalized_Importance` over the rows of the group `(d, f)`; a missing
combination sums to `0`. -/
def pivotCell (rows : List PivotRow) (d : ℚ) (f : String) : ℚ :=
  ((rows.filter (fun r => decide (r.duration = d) && decide (r.feature = f))).map
    (fun r => r.importance)).sum

/-- Modelled from the spec: the surviving column keys — those whose
aggregated vector across all row keys is not identically zero. -/
def pivotCols (rows : List PivotRow) : List String :=
  (pivotColKeys rows).filter (fun f => decide (∃ d ∈ pivotRowKeys rows, pivotCell rows d f ≠ 0))

/-- Modelled from the spec: the pivot of the AggregationEngine — group
by `(Duration, Feature)`, sum `Normalized_Importance`, drop the columns
whose whole vector is zero; one output row per row key, cells in
surviving column order. -/
def pivot (rows : List PivotRow) : List (ℚ × List (String × ℚ)) :=
  (pivotRowKeys rows).map
    (fun d => (d, (pivotCols rows).map (fun f => (f, pivotCell rows d f))))

/-! ## Helper lemmas -/

/-- The boolean comparison of the embedding agrees with the string order. -/
theorem strLe_iff (a b : String) : strLe a b = true ↔ a ≤ b := by
  simp [strLe, String.le_iff_toList_le]

/-- A reversed range filters away every row. -/
theorem filterByDate_rows_nil (t : Table) (s e : String) (h : e < s) :
    (filterByDate t s e).rows = [] := by
  refine List.filter_eq_nil_iff.mpr (fun r _ hkeep => ?_)
  rw [Bool.and_eq_true, strLe_iff, strLe_iff] at hkeep
  exact absurd (le_trans hkeep.1 hkeep.2) (not_le_of_lt h)

/-- When every selected instrument is in the schema, the trace loop
succeeds and yields one series per instrument, in selection order. -/
theorem buildTraces_ok (t : Table) (sel : List String) (hsub : ∀ c ∈ sel, c ∈ t.cols) :
    buildTraces t sel =
      .ok (sel.map (fun c => ⟨c, t.rows.map (fun r => r.date), colVals t c⟩)) := by
  induction sel with
  | nil => rfl
  | cons c cs ih =>
    have hc : c ∈ t.cols := hsub c (List.mem_cons_self c cs)
    have hcs : ∀ d ∈ cs, d ∈ t.cols := fun d hd => hsub d (List.mem_cons_of_mem c hd)
    simp [buildTraces, getColumn, hc, ih hcs, Except.map, colVals]

/-- Evaluation of the whole callback when the selection and the
anomaly-score column are in the schema. -/
theorem update_graphs_ok (t : Table) (sel : List String) (s e : String)
    (hsub : ∀ c ∈ sel, c ∈ t.cols) (han : "anomaly_score" ∈ t.cols) :
    update_graphs t sel s e =
      .ok ⟨sel.map (fun c => ⟨c, (filterByDate t s e).rows.map (fun r => r.date),
              colVals (filterByDate t s e) c⟩),
           ⟨corrGrid (filterByDate t s e) sel, sel, sel⟩,
           ⟨"anomaly_score", (filterByDate t s e).rows.map (fun r => r.date),
              colVals (filterByDate t s e) "anomaly_score"⟩⟩ := by
  have hsub2 : ∀ c ∈ sel, c ∈ (filterByDate t s e).cols := hsub
  have han2 : "anomaly_score" ∈ (filterByDate t s e).cols := han
  rw [update_graphs, buildTraces_ok _ _ hsub2, corrHeatmap, if_pos hsub2,
    anomalyF, getColumn, if_pos han2]
  rfl

/-- A successful callback computes its anomaly series from the
date-filtered data alone. -/
theorem update_graphs_ok_anomaly (t : Table) (sel : List String) (s e : String) (p : Payloads)
    (h : update_graphs t sel s e = .ok p) :
    anomalyF (filterByDate t s e) = .ok p.anomaly := by
  rw [update_graphs] at h
  cases hb : buildTraces (filterByDate t s e) sel with
  | error e2 => rw [hb] at h; simp [Except.bind] at h
  | ok ts =>
    rw [hb] at h
    cases hc : corrHeatmap (filterByDate t s e) sel with
    | error e2 => rw [hc] at h; simp [Except.bind] at h
    | ok hm =>
      rw [hc] at h
      cases ha : anomalyF (filterByDate t s e) with
      | error e2 => rw [ha] at h; simp [Except.bind, Except.map] at h
      | ok an =>
        rw [ha] at h
        simp only [Except.bind, Except.map, Except.ok.injEq] at h
        rw [← h]

/-! ## Claim theorems -/

/-- C1: for every table and date pair, the date filter keeps exactly the
rows whose date lies in the closed interval from the start date to the
end date, and no others. -/
theorem filterByDate_mem_iff (t : Table) (start_date end_date : String) (r : Row) :
    r ∈ (filterByDate t start_date end_date).rows ↔
      r ∈ t.rows ∧ start_date ≤ r.date ∧ r.date ≤ end_date := by
  simp [filterByDate, List.mem_filter, Bool.and_eq_true, strLe_iff]

/-- C8: filtering and the whole recompute step are deterministic, and
the filtered rows keep the stable source order (they form a sublist of
the table rows). -/
theorem update_graphs_deterministic (t : Table) (sel : List String) (s e : String) :
    filterByDate t s e = filterByDate t s e ∧
    update_graphs t sel s e = update_graphs t sel s e ∧
    (filterByDate t s e).rows.Sublist t.rows :=
  ⟨rfl, rfl, List.filter_sublist t.rows⟩

/-- C10: over any sequence of callback invocations with any inputs, the
loaded table is never mutated — the state still holds the startup table. -/
theorem run_callbacks_private_table (st : AppState) (is : List Inputs) :
    run_callbacks st is = st := by
  induction is generalizing st with
  | nil => rfl
  | cons i is ih => exact ih st

/-- C7: the anomaly-score payload depends only on the date range — two
successful recomputations differing only in the selected instruments
return the same anomaly series. -/
theorem anomaly_independent_of_selection (t : Table) (s e : String)
    (sel1 sel2 : List String) (p1 p2 : Payloads)
    (h1 : update_graphs t sel1 s e = .ok p1)
    (h2 : update_graphs t sel2 s e = .ok p2) :
    p1.anomaly = p2.anomaly := by
  have a1 := update_graphs_ok_anomaly t sel1 s e p1 h1
  have a2 := update_graphs_ok_anomaly t sel2 s e p2 h2
  rw [a1] at a2
  exact (Except.ok.injEq _ _).mp a2

/-- A two-row table whose instrument column `A` is constant. -/
def W7 : Table := ⟨["A", "anomaly_score"],
  [⟨"2023-06-01", [("A", 3), ("anomaly_score", 1)]⟩,
   ⟨"2023-06-02", [("A", 3), ("anomaly_score", 2)]⟩]⟩

/-- The payload of `update_graphs W7 ["A"] ...` over the full date range. -/
def P7a : Payloads := ⟨[⟨"A", ["2023-06-01", "2023-06-02"], [3, 3]⟩],
  ⟨[[none]], ["A"], ["A"]⟩,
  ⟨"anomaly_score", ["2023-06-01", "2023-06-02"], [1, 2]⟩⟩

/-- The payload of `update_graphs W7 [] ...` over the full date range. -/
def P7b : Payloads := ⟨[], ⟨[], [], []⟩,
  ⟨"anomaly_score", ["2023-06-01", "2023-06-02"], [1, 2]⟩⟩

/-- Witness for C7: two concrete recomputations differing only in the
selected instruments return the same anomaly series. -/
theorem anomaly_independent_witness : P7a.anomaly = P7b.anomaly :=
  anomaly_independent_of_selection W7 "2023-01-01" "2023-12-31" ["A"] [] P7a P7b
    (by
      rw [update_graphs_ok _ _ _ _ (by decide) (by decide)]
      have hfilt : filterByDate W7 "2023-01-01" "2023-12-31" = W7 := by decide
      have h0 : sxy ([3, 3] : List ℚ) [3, 3] = 0 := by norm_num [sxy, devs, mean]
      have hcell : corrCell ([3, 3] : List ℚ) [3, 3] = none := by
        rw [corrCell, if_pos (Or.inl h0)]
      have hA : colVals W7 "A" = [3, 3] := by decide
      rw [hfilt]
      simp +decide [P7a, corrGrid, hA, hcell])
    (by
      rw [update_graphs_ok _ _ _ _ (by simp) (by decide)]
      have hfilt : filterByDate W7 "2023-01-01" "2023-12-31" = W7 := by decide
      rw [hfilt]
      simp +decide [P7b, corrGrid])

/-- A one-row table used for the reversed date range scenario. -/
def T2cex : Table := ⟨["A", "anomaly_score"],
  [⟨"2023-06-05", [("A", 3), ("anomaly_score", 1)]⟩]⟩

/-- The payload the callback returns on `T2cex` with the reversed range. -/
def P2cex : Payloads := ⟨[⟨"A", [], []⟩], ⟨[[none]], ["A"], ["A"]⟩,
  ⟨"anomaly_score", [], []⟩⟩

/-- C2 counterexample: with the start date strictly after the end date
the filtered view is empty and the callback succeeds, but the resulting
time-series payload has one series per selected instrument (here one),
not zero series. -/
theorem reversed_range_counterexample :
    (filterByDate T2cex "2023-06-10" "2023-06-01").rows = [] ∧
    update_graphs T2cex ["A"] "2023-06-10" "2023-06-01" = .ok P2cex ∧
    P2cex.time_series.length = 1 := by
  refine ⟨by decide, ?_, rfl⟩
  rw [update_graphs_ok _ _ _ _ (by decide) (by decide)]
  have hfilt : filterByDate T2cex "2023-06-10" "2023-06-01" =
      ⟨["A", "anomaly_score"], []⟩ := by decide
  have h0 : sxy ([] : List ℚ) [] = 0 := rfl
  have hcell : corrCell ([] : List ℚ) [] = none := by
    rw [corrCell, if_pos (Or.inl h0)]
  rw [hfilt]
  simp +decide [P2cex, corrGrid, colVals, hcell]

/-- C2 (amended): with the start date strictly after the end date the
filtered view has zero rows and no error is raised; the time-series
payload has one series per selected instrument — not zero series — and
every series is empty (empty x-axis and no values). -/
theorem reversed_range_empty (t : Table) (sel : List String) (s e : String)
    (hlt : e < s) (hsub : ∀ c ∈ sel, c ∈ t.cols) (han : "anomaly_score" ∈ t.cols) :
    (filterByDate t s e).rows = [] ∧
    ∃ p, update_graphs t sel s e = .ok p ∧ p.time_series.length = sel.length ∧
      ∀ ser ∈ p.time_series, ser.x = [] ∧ ser.y = [] := by
  have hF := filterByDate_rows_nil t s e hlt
  refine ⟨hF, ⟨_, update_graphs_ok t sel s e hsub han, by simp, ?_⟩⟩
  intro ser hs
  simp only [List.mem_map] at hs
  obtain ⟨c, hc, rfl⟩ := hs
  simp [colVals, hF]

/-- Witness for C2 (amended) on the concrete one-row table. -/
theorem reversed_range_witness :
    (filterByDate T2cex "2023-06-10" "2023-06-01").rows = [] ∧
    ∃ p, update_graphs T2cex ["A"] "2023-06-10" "2023-06-01" = .ok p ∧
      p.time_series.length = (["A"] : List String).length ∧
      ∀ ser ∈ p.time_series, ser.x = [] ∧ ser.y = [] :=
  reversed_range_empty T2cex ["A"] "2023-06-10" "2023-06-01"
    (by rw [String.lt_iff_toList_lt]; decide) (by decide) (by decide)

/-- C3: with an empty selection the callback succeeds and returns the
empty-payload outcome — zero time-series traces and an empty correlation
grid — rather than series for all instruments. -/
theorem empty_selection_empty_payload (t : Table) (s e : String)
    (han : "anomaly_score" ∈ t.cols) :
    update_graphs t [] s e =
      .ok ⟨[], ⟨[], [], []⟩,
        ⟨"anomaly_score", (filterByDate t s e).rows.map (fun r => r.date),
          colVals (filterByDate t s e) "anomaly_score"⟩⟩ :=
  update_graphs_ok t [] s e (by simp) han

/-- A one-row table used for the empty-selection scenario. -/
def T3tab : Table := ⟨["anomaly_score"], [⟨"2023-06-01", [("anomaly_score", 1)]⟩]⟩

/-- Witness for C3 on a concrete one-row table. -/
theorem empty_selection_witness :
    update_graphs T3tab [] "2023-01-01" "2023-12-31" =
      .ok ⟨[], ⟨[], [], []⟩,
        ⟨"anomaly_score",
          (filterByDate T3tab "2023-01-01" "2023-12-31").rows.map (fun r => r.date),
          colVals (filterByDate T3tab "2023-01-01" "2023-12-31") "anomaly_score"⟩⟩ :=
  empty_selection_empty_payload T3tab "2023-01-01" "2023-12-31" (by decide)

/-- An unknown selected instrument makes the trace loop fail with an
unknown-column error naming a column absent from the schema. -/
theorem buildTraces_error (t : Table) (sel : List String) (c : String)
    (h1 : c ∈ sel) (h2 : c ∉ t.cols) :
    ∃ c2, c2 ∉ t.cols ∧ buildTraces t sel = .error ⟨c2⟩ := by
  induction sel with
  | nil => cases h1
  | cons d ds ih =>
    by_cases hd : d ∈ t.cols
    · have hcd : c ∈ ds := by
        cases List.mem_cons.mp h1 with
        | inl h => exact absurd (h ▸ hd) h2
        | inr h => exact h
      obtain ⟨c2, hc2, herr⟩ := ih hcd
      exact ⟨c2, hc2, by simp [buildTraces, getColumn, hd, herr, Except.map]⟩
    · exact ⟨d, hd, by simp [buildTraces, getColumn, hd]⟩

/-- C9: a recompute naming a column absent from the schema fails with an
`UnknownColumnError` for an absent column; it is never silently ignored. -/
theorem unknown_column_error (t : Table) (sel : List String) (s e : String) (c : String)
    (h1 : c ∈ sel) (h2 : c ∉ t.cols) :
    ∃ c2, c2 ∉ t.cols ∧ update_graphs t sel s e = .error ⟨c2⟩ := by
  obtain ⟨c2, hc2, herr⟩ := buildTraces_error (filterByDate t s e) sel c h1 h2
  exact ⟨c2, hc2, by rw [update_graphs, herr]; rfl⟩

/-- An empty table with a single schema column. -/
def W9 : Table := ⟨["A"], []⟩

/-- Witness for C9: selecting the unknown column `Z` fails. -/
theorem unknown_column_witness :
    ∃ c2, c2 ∉ W9.cols ∧ update_graphs W9 ["Z"] "2023-01-01" "2023-12-31" = .error ⟨c2⟩ :=
  unknown_column_error W9 ["Z"] "2023-01-01" "2023-12-31" "Z" (by decide) (by decide)

/-- The centered cross moment is symmetric in its two columns. -/
theorem sxy_comm (xs ys : List ℚ) : sxy xs ys = sxy ys xs := by
  unfold sxy
  rw [List.zipWith_comm_of_comm _ mul_comm]

/-- A sum of pointwise self-products is nonnegative. -/
theorem zip_self_sum_nonneg (l : List ℚ) : 0 ≤ (List.zipWith (fun a b => a * b) l l).sum := by
  induction l with
  | nil => simp
  | cons a l ih =>
    rw [List.zipWith_cons_cons, List.sum_cons]
    exact add_nonneg (mul_self_nonneg a) ih

/-- The centered sum of squares of a column is nonnegative. -/
theorem sxy_self_nonneg (xs : List ℚ) : 0 ≤ sxy xs xs :=
  zip_self_sum_nonneg (devs xs)

/-- A column with fewer than two entries has zero centered sum of squares. -/
theorem sxy_self_short (xs : List ℚ) (h : xs.length < 2) : sxy xs xs = 0 := by
  match xs with
  | [] => rfl
  | [a] => simp [sxy, devs, mean]
  | a :: b :: l => simp at h; omega

/-- A zero centered sum of squares on the left forces the NaN sentinel. -/
theorem corrCell_none_left (xs ys : List ℚ) (h : sxy xs xs = 0) : corrCell xs ys = none := by
  rw [corrCell, if_pos (Or.inl h)]

/-- A zero centered sum of squares on the right forces the NaN sentinel. -/
theorem corrCell_none_right (xs ys : List ℚ) (h : sxy ys ys = 0) : corrCell xs ys = none := by
  rw [corrCell, if_pos (Or.inr h)]

/-- Pearson cells are symmetric in the two columns. -/
theorem corrCell_comm (xs ys : List ℚ) : corrCell xs ys = corrCell ys xs := by
  by_cases h : sxy xs xs = 0 ∨ sxy ys ys = 0
  · rw [corrCell, if_pos h, corrCell, if_pos h.symm]
  · push_neg at h
    rw [corrCell, if_neg (by push_neg; exact h), corrCell,
      if_neg (by push_neg; exact ⟨h.2, h.1⟩)]
    rw [sxy_comm xs ys, mul_comm ((sxy xs xs : ℚ) : ℝ) ((sxy ys ys : ℚ) : ℝ)]

/-- A column with nonzero variance correlates with itself to exactly 1. -/
theorem corrCell_self (xs : List ℚ) (h : sxy xs xs ≠ 0) : corrCell xs xs = some 1 := by
  rw [corrCell, if_neg (by simp [h])]
  have hpos : (0 : ℝ) < ((sxy xs xs : ℚ) : ℝ) := by
    exact_mod_cast lt_of_le_of_ne (sxy_self_nonneg xs) (Ne.symm h)
  rw [Real.sqrt_mul_self hpos.le, div_self hpos.ne']

/-- C5: the correlation grid is symmetric — the cell of every column
pair, degenerate columns included, equals the cell of the swapped pair —
and the diagonal cell of any column with nonzero variance equals 1. -/
theorem correlation_symm_diag (t : Table) (a b : String) :
    corrCell (colVals t a) (colVals t b) = corrCell (colVals t b) (colVals t a) ∧
    (sxy (colVals t a) (colVals t a) ≠ 0 → corrCell (colVals t a) (colVals t a) = some 1) :=
  ⟨corrCell_comm _ _, fun h => corrCell_self _ h⟩

/-- A two-row table whose columns `A` and `B` both vary. -/
def T5tab : Table := ⟨["A", "B"],
  [⟨"2023-06-01", [("A", 0), ("B", 1)]⟩, ⟨"2023-06-02", [("A", 1), ("B", 3)]⟩]⟩

/-- Witness for C5 on the concrete two-row table, discharging the
nonzero-variance condition of the diagonal part. -/
theorem correlation_symm_diag_witness :
    corrCell (colVals T5tab "A") (colVals T5tab "B") =
      corrCell (colVals T5tab "B") (colVals T5tab "A") ∧
    corrCell (colVals T5tab "A") (colVals T5tab "A") = some 1 :=
  ⟨(correlation_symm_diag T5tab "A" "B").1,
   (correlation_symm_diag T5tab "A" "B").2 (by
      have hA : colVals T5tab "A" = [0, 1] := by decide
      rw [hA]; norm_num [sxy, devs, mean])⟩

/-- C6: a zero-variance column (and any column vector of fewer than two
rows) forces the NaN sentinel in every cell of an affected pair, in both
orders, while a pair of columns of the same table that both have nonzero
variance still gets a computed value in the same grid. -/
theorem degenerate_correlation_sentinel (t : Table) (ca cy cz cw : String) (vs : List ℚ)
    (h0 : sxy (colVals t ca) (colVals t ca) = 0) (h1 : vs.length < 2)
    (h2 : sxy (colVals t cz) (colVals t cz) ≠ 0)
    (h3 : sxy (colVals t cw) (colVals t cw) ≠ 0) :
    corrCell (colVals t ca) (colVals t cy) = none ∧
    corrCell (colVals t cy) (colVals t ca) = none ∧
    corrCell vs vs = none ∧
    ∃ r, corrCell (colVals t cz) (colVals t cw) = some r := by
  refine ⟨corrCell_none_left _ _ h0, corrCell_none_right _ _ h0,
    corrCell_none_left _ _ (sxy_self_short vs h1), ?_⟩
  exact ⟨_, by rw [corrCell, if_neg (by push_neg; exact ⟨h2, h3⟩)]⟩

/-- A two-row table with a constant column `A` and varying columns `B`, `C`. -/
def W6 : Table := ⟨["A", "B", "C"],
  [⟨"2023-06-01", [("A", 5), ("B", 0), ("C", 1)]⟩,
   ⟨"2023-06-02", [("A", 5), ("B", 1), ("C", 3)]⟩]⟩

/-- Witness for C6 on the concrete two-row table with a constant column. -/
theorem degenerate_correlation_witness :
    corrCell (colVals W6 "A") (colVals W6 "B") = none ∧
    corrCell (colVals W6 "B") (colVals W6 "A") = none ∧
    corrCell ([7] : List ℚ) [7] = none ∧
    ∃ r, corrCell (colVals W6 "B") (colVals W6 "C") = some r :=
  degenerate_correlation_sentinel W6 "A" "B" "B" "C" [7]
    (by have h : colVals W6 "A" = [5, 5] := by decide
        rw [h]; norm_num [sxy, devs, mean])
    (by decide)
    (by have h : colVals W6 "B" = [0, 1] := by decide
        rw [h]; norm_num [sxy, devs, mean])
    (by have h : colVals W6 "C" = [1, 3] := by decide
        rw [h]; norm_num [sxy, devs, mean])

/-- The concrete scenario table of the spec, already restricted to the
category `Type = IBS_R`: one `Feature A` row of importance 0 and one
`Feature B` row of importance 5, both at `Duration 1`. -/
def scenRows : List PivotRow :=
  filterCategory [⟨"IBS_R", 1, "A", 0⟩, ⟨"IBS_R", 1, "B", 5⟩] ["IBS_R"]

/-- The scenario has the single row key 1. -/
theorem scen_keys : pivotRowKeys scenRows = [1] := by decide

/-- The aggregated `A` cell of the scenario is 0. -/
theorem scen_cell_A : pivotCell scenRows 1 "A" = 0 := by
  have h : (scenRows.filter (fun r => decide (r.duration = 1) && decide (r.feature = "A"))) =
      [⟨"IBS_R", 1, "A", 0⟩] := by decide
  rw [pivotCell, h]
  norm_num

/-- The aggregated `B` cell of the scenario is 5. -/
theorem scen_cell_B : pivotCell scenRows 1 "B" = 5 := by
  have h : (scenRows.filter (fun r => decide (r.duration = 1) && decide (r.feature = "B"))) =
      [⟨"IBS_R", 1, "B", 5⟩] := by decide
  rw [pivotCell, h]
  norm_num

/-- Only column `B` survives the all-zero column drop in the scenario. -/
theorem scen_cols : pivotCols scenRows = ["B"] := by
  have hcols : pivotColKeys scenRows = ["A", "B"] := by decide
  have hpA : ¬ ∃ d ∈ pivotRowKeys scenRows, pivotCell scenRows d "A" ≠ 0 := by
    simp [scen_keys, scen_cell_A]
  have hpB : ∃ d ∈ pivotRowKeys scenRows, pivotCell scenRows d "B" ≠ 0 := by
    refine ⟨1, by simp [scen_keys], by rw [scen_cell_B]; norm_num⟩
  rw [pivotCols, hcols, List.filter_cons, List.filter_cons, List.filter_nil,
    decide_eq_false hpA, decide_eq_true hpB]
  simp

/-- C4: the pivot drops every category column whose aggregated vector is
zero at all row keys — no cell of such a column appears in any output
row — and the concrete two-row scenario pivots to the matrix with the
single entry `{1: {B: 5}}`, column `A` dropped. -/
theorem pivot_drops_zero_columns :
    (∀ rows d cv f, (d, cv) ∈ pivot rows →
        (∀ k ∈ pivotRowKeys rows, pivotCell rows k f = 0) → ∀ v, (f, v) ∉ cv) ∧
    pivot scenRows = [(1, [("B", 5)])] := by
  constructor
  · intro rows d cv f hmem hz v hv
    obtain ⟨k, hk, heq⟩ := List.mem_map.mp hmem
    have hcv : cv = (pivotCols rows).map (fun f2 => (f2, pivotCell rows k f2)) :=
      (congrArg Prod.snd heq).symm
    rw [hcv] at hv
    obtain ⟨f2, hf2, hpair⟩ := List.mem_map.mp hv
    have hf : f2 = f := congrArg Prod.fst hpair
    subst hf
    rw [pivotCols, List.mem_filter] at hf2
    obtain ⟨-, hdec⟩ := hf2
    obtain ⟨d2, hd2, hne⟩ := of_decide_eq_true hdec
    exact hne (hz d2 hd2)
  · rw [pivot, scen_keys, scen_cols]
    simp [scen_cell_B]

/-- Witness for C4: the dropped pair of column `A` is indeed absent from
the only output row of the scenario pivot. -/
theorem pivot_drops_zero_columns_witness :
    (("A" : String), (0 : ℚ)) ∉ ([("B", (5 : ℚ))] : List (String × ℚ)) :=
  pivot_drops_zero_columns.1 scenRows 1 [("B", 5)] "A"
    (by rw [pivot_drops_zero_columns.2]; simp)
    (by intro k hk
        rw [scen_keys] at hk
        simp at hk
        subst hk
        exact scen_cell_A)
    0
